import Mathlib

/-!
Verification development for the MXPERT ownership-analysis pipeline
(`src/owner.py` and `src/owner2.py`).

The Python code is shallowly embedded: Python/JSON values are modelled by the
inductive type `JVal`, Python dicts by association lists (`Dict`), external
effects (HTTP search calls, the Gemini model call) by explicit parameters
describing the outcome of each call, and `json.loads` by an executable
fuelled JSON parser.  All definitions are translated from the source files;
comments point to the function each definition embeds.
-/

set_option maxHeartbeats 1000000

/-- A Python/JSON value, as produced by `json.loads` and manipulated by the
pipeline.  `num` holds integer literals; `fnum` holds the raw text of a
non-integer numeric literal (the pipeline never computes with floats, so the
literal text is an adequate model). -/
inductive JVal where
  | null : JVal
  | bool : Bool → JVal
  | num : Int → JVal
  | fnum : String → JVal
  | str : String → JVal
  | list : List JVal → JVal
  | obj : List (String × JVal) → JVal
deriving Repr

/-- A Python dict with string keys, modelled as an association list in
insertion order (Python dicts preserve insertion order). -/
abbrev Dict : Type := List (String × JVal)

/-- Dict lookup (`d[k]` / successful `d.get(k)`).  Keys in a `Dict` built by
the embedded code are unique, so first match is the match. -/
def dget : Dict → String → Option JVal
  | [], _ => none
  | (k, v) :: rest, key => if k == key then some v else dget rest key

/-- Python `d.get(key, default)`. -/
def dgetD (d : Dict) (key : String) (dflt : JVal) : JVal :=
  (dget d key).getD dflt

/-- Python `d[key] = v`: replace the value at an existing key in place,
otherwise append the new pair at the end (insertion-order semantics). -/
def dupsert : Dict → String → JVal → Dict
  | [], key, v => [(key, v)]
  | (k, w) :: rest, key, v =>
    if k == key then (k, v) :: rest else (k, w) :: dupsert rest key v

/-- Python `d.setdefault(key, v)`. -/
def dsetdefault (d : Dict) (key : String) (v : JVal) : Dict :=
  match dget d key with
  | some _ => d
  | none => d ++ [(key, v)]

/-- ASCII lower-casing of one character (model of `str.lower()` on the
characters the pipeline actually handles). -/
def charLower (c : Char) : Char :=
  if 'A' ≤ c && c ≤ 'Z' then Char.ofNat (c.toNat + 32) else c

/-- Python `s.lower()`. -/
def pyLower (s : String) : String := String.mk (s.data.map charLower)

/-- Python whitespace, as stripped by `str.strip()`. -/
def pyWsChar (c : Char) : Bool :=
  c = ' ' || c = '\t' || c = '\n' || c = '\r' || c = '\x0b' || c = '\x0c'

/-- Python `s.strip()`. -/
def pyStripWs (s : String) : String :=
  String.mk (((s.data.dropWhile pyWsChar).reverse.dropWhile pyWsChar).reverse)

/-- Python `s.strip(chars)`: strips any of the given characters from both
ends. -/
def pyStripChars (chars : List Char) (s : String) : String :=
  String.mk (((s.data.dropWhile chars.contains).reverse.dropWhile chars.contains).reverse)

/-- Whether the first list is a prefix of the second (`s.startswith(p)`). -/
def listStartsWith : List Char → List Char → Bool
  | [], _ => true
  | _ :: _, [] => false
  | p :: ps, c :: cs => p == c && listStartsWith ps cs

/-- Python `s.startswith(p)`. -/
def pyStartsWith (s p : String) : Bool := listStartsWith p.data s.data

/-- Python truthiness (`bool(v)`) on the modelled values.  A non-integer
numeric literal is falsy exactly when its mantissa has no nonzero digit
(`0.0`, `-0.00e5`, ...). -/
def pyTruthy : JVal → Bool
  | .null => false
  | .bool b => b
  | .num n => n != 0
  | .fnum raw =>
    (raw.data.takeWhile (fun c => c != 'e' && c != 'E')).any (fun c => '1' ≤ c && c ≤ '9')
  | .str s => !s.data.isEmpty
  | .list xs => !xs.isEmpty
  | .obj ms => !ms.isEmpty

mutual

/-- Python `repr(v)` for the modelled values (string escaping inside `repr`
is abstracted: a string renders between plain quote characters). -/
def pyRepr : JVal → String
  | .null => "None"
  | .bool true => "True"
  | .bool false => "False"
  | .num n => toString n
  | .fnum raw => raw
  | .str s => "\x27" ++ s ++ "\x27"
  | .list xs => "[" ++ pyReprList xs ++ "]"
  | .obj ms => "\x7b" ++ pyReprObj ms ++ "\x7d"

/-- Comma-separated `repr` of the elements of a Python list. -/
def pyReprList : List JVal → String
  | [] => ""
  | [x] => pyRepr x
  | x :: rest => pyRepr x ++ ", " ++ pyReprList rest

/-- Comma-separated `repr` of the items of a Python dict. -/
def pyReprObj : List (String × JVal) → String
  | [] => ""
  | [(k, v)] => "\x27" ++ k ++ "\x27: " ++ pyRepr v
  | (k, v) :: rest => "\x27" ++ k ++ "\x27: " ++ pyRepr v ++ ", " ++ pyReprObj rest

end

/-- Python `str(v)` for the modelled values. -/
def pyStr : JVal → String
  | .str s => s
  | v => pyRepr v

/-- `isinstance(v, list)`. -/
def JVal.isList : JVal → Bool
  | .list _ => true
  | _ => false

/-- `isinstance(v, str)`. -/
def JVal.isStr : JVal → Bool
  | .str _ => true
  | _ => false

/-- Python type name of the modelled value, as it appears in an
`AttributeError` message. -/
def pyTypeName : JVal → String
  | .null => "NoneType"
  | .bool _ => "bool"
  | .num _ => "int"
  | .fnum _ => "float"
  | .str _ => "str"
  | .list _ => "list"
  | .obj _ => "dict"

/-!  ## `_coerce_output` (owner.py lines 197-225; identical in owner2.py
lines 95-128 and 425-441)  -/

/-- The placeholder test of `_nullify`:
`v.strip().lower() in {"", "none", "null", "n/a", "na"}`. -/
def isPlaceholder (s : String) : Bool :=
  ["", "none", "null", "n/a", "na"].contains (pyLower (pyStripWs s))

/-- `_nullify` (inner helper of `_coerce_output`): placeholder strings become
`None`; every non-string value passes through unchanged. -/
def nullify (v : JVal) : JVal :=
  match v with
  | .str s => if isPlaceholder s then .null else .str s
  | _ => v

/-- The `valid_ownership` set of `_coerce_output`. -/
def valid_ownership : List String :=
  ["privately_held_individual", "startup_venture_backed", "corporate_subsidiary",
   "publicly_listed", "private_equity_owned", "government_entity", "non_profit", "other"]

/-- The valid confidence levels checked by `_coerce_output`. -/
def valid_confidence : List String := ["high", "medium", "low"]

/-- `_coerce_output` (owner.py lines 197-225): coerces an extracted mapping
into the fixed 8-key `AnalysisResult` shape. -/
def coerce_output (obj : Dict) : Dict :=
  let owner := nullify (dgetD obj "owner_founder" .null)
  let company_linkedin := nullify (dgetD obj "company_linkedin" .null)
  let founder_linkedin := nullify (dgetD obj "founder_linkedin" .null)
  let parent := nullify (dgetD obj "parent_company" .null)
  let affiliated0 := dgetD obj "affiliated_companies" (.list [])
  let ownership_type0 := pyLower (pyStripWs (pyStr (dgetD obj "ownership_type" (.str "other"))))
  let conf0 := pyLower (pyStripWs (pyStr (dgetD obj "confidence" (.str "low"))))
  let sources := dgetD obj "sources_found" (.str "")
  let affiliated := if affiliated0.isList then affiliated0 else .list []
  let ownership_type :=
    if valid_ownership.contains ownership_type0 then ownership_type0 else "other"
  let conf := if valid_confidence.contains conf0 then conf0 else "low"
  [("owner_founder", owner), ("company_linkedin", company_linkedin),
   ("founder_linkedin", founder_linkedin), ("parent_company", parent),
   ("affiliated_companies", affiliated), ("ownership_type", .str ownership_type),
   ("confidence", .str conf), ("sources_found", sources)]

/-- The 8 keys of the `AnalysisResult` schema. -/
def analysis_keys : List String :=
  ["owner_founder", "company_linkedin", "founder_linkedin", "parent_company",
   "affiliated_companies", "ownership_type", "confidence", "sources_found"]

/-!  ## Lookup lemmas for the normalizer output  -/

theorem dget_coerce_owner (obj : Dict) :
    dget (coerce_output obj) "owner_founder" =
      some (nullify (dgetD obj "owner_founder" .null)) := rfl

theorem dget_coerce_company_linkedin (obj : Dict) :
    dget (coerce_output obj) "company_linkedin" =
      some (nullify (dgetD obj "company_linkedin" .null)) := rfl

theorem dget_coerce_founder_linkedin (obj : Dict) :
    dget (coerce_output obj) "founder_linkedin" =
      some (nullify (dgetD obj "founder_linkedin" .null)) := rfl

theorem dget_coerce_parent (obj : Dict) :
    dget (coerce_output obj) "parent_company" =
      some (nullify (dgetD obj "parent_company" .null)) := rfl

theorem dget_coerce_affiliated (obj : Dict) :
    dget (coerce_output obj) "affiliated_companies" =
      some (if (dgetD obj "affiliated_companies" (.list [])).isList
            then dgetD obj "affiliated_companies" (.list []) else .list []) := rfl

theorem dget_coerce_ownership (obj : Dict) :
    dget (coerce_output obj) "ownership_type" =
      some (.str (if valid_ownership.contains
            (pyLower (pyStripWs (pyStr (dgetD obj "ownership_type" (.str "other")))))
          then pyLower (pyStripWs (pyStr (dgetD obj "ownership_type" (.str "other"))))
          else "other")) := rfl

theorem dget_coerce_confidence (obj : Dict) :
    dget (coerce_output obj) "confidence" =
      some (.str (if valid_confidence.contains
            (pyLower (pyStripWs (pyStr (dgetD obj "confidence" (.str "low")))))
          then pyLower (pyStripWs (pyStr (dgetD obj "confidence" (.str "low"))))
          else "low")) := rfl

theorem dget_coerce_sources (obj : Dict) :
    dget (coerce_output obj) "sources_found" =
      some (dgetD obj "sources_found" (.str "")) := rfl

/-- The normalizer output, written out field by field (the `let`-chain of
`_coerce_output`, expanded). -/
theorem coerce_output_eq (x : Dict) : coerce_output x =
    [("owner_founder", nullify (dgetD x "owner_founder" .null)),
     ("company_linkedin", nullify (dgetD x "company_linkedin" .null)),
     ("founder_linkedin", nullify (dgetD x "founder_linkedin" .null)),
     ("parent_company", nullify (dgetD x "parent_company" .null)),
     ("affiliated_companies", if (dgetD x "affiliated_companies" (.list [])).isList
        then dgetD x "affiliated_companies" (.list []) else .list []),
     ("ownership_type", .str (if valid_ownership.contains
          (pyLower (pyStripWs (pyStr (dgetD x "ownership_type" (.str "other")))))
        then pyLower (pyStripWs (pyStr (dgetD x "ownership_type" (.str "other"))))
        else "other")),
     ("confidence", .str (if valid_confidence.contains
          (pyLower (pyStripWs (pyStr (dgetD x "confidence" (.str "low")))))
        then pyLower (pyStripWs (pyStr (dgetD x "confidence" (.str "low"))))
        else "low")),
     ("sources_found", dgetD x "sources_found" (.str ""))] := rfl

theorem dgetD_coerce_owner (x : Dict) (dflt : JVal) :
    dgetD (coerce_output x) "owner_founder" dflt =
      nullify (dgetD x "owner_founder" .null) := by
  simp [dgetD, dget_coerce_owner]

theorem dgetD_coerce_company_linkedin (x : Dict) (dflt : JVal) :
    dgetD (coerce_output x) "company_linkedin" dflt =
      nullify (dgetD x "company_linkedin" .null) := by
  simp [dgetD, dget_coerce_company_linkedin]

theorem dgetD_coerce_founder_linkedin (x : Dict) (dflt : JVal) :
    dgetD (coerce_output x) "founder_linkedin" dflt =
      nullify (dgetD x "founder_linkedin" .null) := by
  simp [dgetD, dget_coerce_founder_linkedin]

theorem dgetD_coerce_parent (x : Dict) (dflt : JVal) :
    dgetD (coerce_output x) "parent_company" dflt =
      nullify (dgetD x "parent_company" .null) := by
  simp [dgetD, dget_coerce_parent]

theorem dgetD_coerce_affiliated (x : Dict) (dflt : JVal) :
    dgetD (coerce_output x) "affiliated_companies" dflt =
      (if (dgetD x "affiliated_companies" (.list [])).isList
       then dgetD x "affiliated_companies" (.list []) else .list []) := by
  simp [dgetD, dget_coerce_affiliated]

theorem dgetD_coerce_ownership (x : Dict) (dflt : JVal) :
    dgetD (coerce_output x) "ownership_type" dflt =
      .str (if valid_ownership.contains
          (pyLower (pyStripWs (pyStr (dgetD x "ownership_type" (.str "other")))))
        then pyLower (pyStripWs (pyStr (dgetD x "ownership_type" (.str "other"))))
        else "other") := by
  simp [dgetD, dget_coerce_ownership]

theorem dgetD_coerce_confidence (x : Dict) (dflt : JVal) :
    dgetD (coerce_output x) "confidence" dflt =
      .str (if valid_confidence.contains
          (pyLower (pyStripWs (pyStr (dgetD x "confidence" (.str "low")))))
        then pyLower (pyStripWs (pyStr (dgetD x "confidence" (.str "low"))))
        else "low") := by
  simp [dgetD, dget_coerce_confidence]

theorem dgetD_coerce_sources (x : Dict) (dflt : JVal) :
    dgetD (coerce_output x) "sources_found" dflt =
      dgetD x "sources_found" (.str "") := by
  simp [dgetD, dget_coerce_sources]

theorem pyStr_str (s : String) : pyStr (.str s) = s := rfl

theorem nullify_nullify (v : JVal) : nullify (nullify v) = nullify v := by
  cases v <;> try rfl
  case str s => by_cases h : isPlaceholder s <;> simp [nullify, h]

theorem nullify_of_not_str (v : JVal) (h : v.isStr = false) : nullify v = v := by
  cases v <;> simp_all [nullify, JVal.isStr]

theorem isList_forced (a : JVal) :
    (if a.isList then a else JVal.list []).isList = true := by
  cases a <;> simp [JVal.isList]

theorem list_force_stable (a : JVal) :
    (if (if a.isList then a else JVal.list []).isList
     then (if a.isList then a else JVal.list []) else JVal.list [])
      = (if a.isList then a else JVal.list []) := by
  cases a <;> simp [JVal.isList]

theorem valid_ownership_fixed (s : String) (h : s ∈ valid_ownership) :
    pyLower (pyStripWs s) = s := by
  simp [valid_ownership] at h
  rcases h with rfl | rfl | rfl | rfl | rfl | rfl | rfl | rfl <;> decide

theorem valid_confidence_fixed (s : String) (h : s ∈ valid_confidence) :
    pyLower (pyStripWs s) = s := by
  simp [valid_confidence] at h
  rcases h with rfl | rfl | rfl <;> decide

/-- An already coerced enum value survives a second coercion pass. -/
theorem enum_stable (l : List String) (dflt : String)
    (hfix : ∀ s ∈ l, pyLower (pyStripWs s) = s) (hd : dflt ∈ l) (t0 : String) :
    (if l.contains (pyLower (pyStripWs (if l.contains t0 then t0 else dflt)))
     then pyLower (pyStripWs (if l.contains t0 then t0 else dflt)) else dflt)
      = (if l.contains t0 then t0 else dflt) := by
  by_cases h : l.contains t0
  · rw [if_pos h, hfix t0 (List.mem_of_elem_eq_true h), if_pos h]
  · rw [if_neg h, hfix dflt hd, if_pos (List.elem_eq_true_of_mem hd)]

/-- **C2** — For every input mapping, the normalizer output has
`ownership_type` in the 8-value enum, `confidence` in high/medium/low,
`affiliated_companies` a list (any non-list input becomes the empty list),
and all 8 schema keys present. -/
theorem c2_normalizer_invariants (obj : Dict) :
    (∃ t, dget (coerce_output obj) "ownership_type" = some (.str t) ∧ t ∈ valid_ownership) ∧
    (∃ c, dget (coerce_output obj) "confidence" = some (.str c) ∧ c ∈ valid_confidence) ∧
    (∃ xs, dget (coerce_output obj) "affiliated_companies" = some (.list xs)) ∧
    (∀ v, dget obj "affiliated_companies" = some v → v.isList = false →
      dget (coerce_output obj) "affiliated_companies" = some (.list [])) ∧
    (∀ k ∈ analysis_keys, (dget (coerce_output obj) k).isSome) := by
  refine ⟨?_, ?_, ?_, ?_, ?_⟩
  · rw [dget_coerce_ownership]
    set t0 := pyLower (pyStripWs (pyStr (dgetD obj "ownership_type" (.str "other")))) with ht0
    by_cases h : valid_ownership.contains t0
    · exact ⟨t0, by rw [if_pos h], List.mem_of_elem_eq_true h⟩
    · exact ⟨"other", by rw [if_neg h], by decide⟩
  · rw [dget_coerce_confidence]
    set c0 := pyLower (pyStripWs (pyStr (dgetD obj "confidence" (.str "low")))) with hc0
    by_cases h : valid_confidence.contains c0
    · exact ⟨c0, by rw [if_pos h], List.mem_of_elem_eq_true h⟩
    · exact ⟨"low", by rw [if_neg h], by decide⟩
  · rw [dget_coerce_affiliated]
    set a := dgetD obj "affiliated_companies" (.list []) with ha
    cases a <;> simp [JVal.isList]
  · intro v hv hnl
    rw [dget_coerce_affiliated]
    have : dgetD obj "affiliated_companies" (.list []) = v := by simp [dgetD, hv]
    rw [this, hnl]
    simp
  · intro k hk
    fin_cases hk <;>
      simp [dget_coerce_owner, dget_coerce_company_linkedin, dget_coerce_founder_linkedin,
        dget_coerce_parent, dget_coerce_affiliated, dget_coerce_ownership,
        dget_coerce_confidence, dget_coerce_sources]

/-- **C2 witness** — concrete instance: a non-list `affiliated_companies`
input becomes the empty list. -/
theorem c2_normalizer_invariants_witness :
    dget (coerce_output [("affiliated_companies", JVal.str "x")]) "affiliated_companies" =
      some (.list []) :=
  (c2_normalizer_invariants [("affiliated_companies", JVal.str "x")]).2.2.2.1
    (JVal.str "x") rfl rfl

/-- **C4** — The normalizer is idempotent:
`_coerce_output(_coerce_output(x)) = _coerce_output(x)` for every mapping. -/
theorem c4_normalizer_idempotent (x : Dict) :
    coerce_output (coerce_output x) = coerce_output x := by
  rw [coerce_output_eq (coerce_output x),
    dgetD_coerce_owner, dgetD_coerce_company_linkedin, dgetD_coerce_founder_linkedin,
    dgetD_coerce_parent, dgetD_coerce_affiliated, dgetD_coerce_ownership,
    dgetD_coerce_confidence, dgetD_coerce_sources,
    nullify_nullify, nullify_nullify, nullify_nullify, nullify_nullify,
    list_force_stable, pyStr_str, pyStr_str,
    enum_stable valid_ownership "other" valid_ownership_fixed (by decide),
    enum_stable valid_confidence "low" valid_confidence_fixed (by decide),
    ← coerce_output_eq x]

/-- **C10** — The normalizer rewrites placeholders to null only for string
values: non-string values of the four nullable fields pass through
unchanged, and `sources_found` passes through with whatever type it has,
defaulting to the empty string only when the key is absent. -/
theorem c10_nonstring_passthrough (obj : Dict) :
    (∀ k ∈ (["owner_founder", "company_linkedin", "founder_linkedin",
        "parent_company"] : List String),
      ∀ v, dget obj k = some v → v.isStr = false →
        dget (coerce_output obj) k = some v) ∧
    (∀ v, dget obj "sources_found" = some v →
      dget (coerce_output obj) "sources_found" = some v) ∧
    (dget obj "sources_found" = none →
      dget (coerce_output obj) "sources_found" = some (.str "")) := by
  refine ⟨?_, ?_, ?_⟩
  · intro k hk v hv hstr
    fin_cases hk
    · rw [dget_coerce_owner]
      simp [dgetD, hv, nullify_of_not_str v hstr]
    · rw [dget_coerce_company_linkedin]
      simp [dgetD, hv, nullify_of_not_str v hstr]
    · rw [dget_coerce_founder_linkedin]
      simp [dgetD, hv, nullify_of_not_str v hstr]
    · rw [dget_coerce_parent]
      simp [dgetD, hv, nullify_of_not_str v hstr]
  · intro v hv
    rw [dget_coerce_sources]
    simp [dgetD, hv]
  · intro hv
    rw [dget_coerce_sources]
    simp [dgetD, hv]

/-- **C10 witness** — a numeric `owner_founder` and a boolean
`sources_found` pass through the normalizer unchanged. -/
theorem c10_nonstring_passthrough_witness :
    dget (coerce_output [("owner_founder", JVal.num 5), ("sources_found", JVal.bool true)])
        "owner_founder" = some (.num 5) ∧
    dget (coerce_output [("owner_founder", JVal.num 5), ("sources_found", JVal.bool true)])
        "sources_found" = some (.bool true) :=
  ⟨(c10_nonstring_passthrough _).1 "owner_founder" (by decide) (JVal.num 5) rfl rfl,
   (c10_nonstring_passthrough _).2.1 (JVal.bool true) rfl⟩

/-!  ## `json.loads`

An executable model of Python's strict JSON parser: whitespace per the JSON
grammar, the full value grammar (with `NaN`/`Infinity`/`-Infinity`, which
Python's `json` accepts by default), and rejection of trailing data.
Duplicate object keys follow Python semantics (last value wins, first
position kept) via `dupsert`.  -/

/-- The whitespace the JSON grammar allows between tokens. -/
def jsonWsChar (c : Char) : Bool :=
  c = ' ' || c = '\t' || c = '\n' || c = '\r'

/-- Skip JSON whitespace. -/
def skipWs (cs : List Char) : List Char := cs.dropWhile jsonWsChar

/-- Value of one hex digit. -/
def hexVal (c : Char) : Option Nat :=
  if c.isDigit then some (c.toNat - 48)
  else if 'a' ≤ c && c ≤ 'f' then some (c.toNat - 87)
  else if 'A' ≤ c && c ≤ 'F' then some (c.toNat - 55)
  else none

/-- The character a simple JSON escape letter denotes. -/
def escChar : Char → Option Char
  | '"' => some '"'
  | '\\' => some '\\'
  | '/' => some '/'
  | 'b' => some '\x08'
  | 'f' => some '\x0c'
  | 'n' => some '\x0a'
  | 'r' => some '\x0d'
  | 't' => some '\x09'
  | _ => none

/-- Numeric value of a `\uXXXX` escape's four hex digits. -/
def hex4digits (a b c d : Char) : Option Nat :=
  match hexVal a, hexVal b, hexVal c, hexVal d with
  | some va, some vb, some vc, some vd => some (((va * 16 + vb) * 16 + vc) * 16 + vd)
  | _, _, _, _ => none

/-- Parse the body of a JSON string (after the opening quote), handling the
JSON escape sequences.  `\uXXXX` maps through `Char.ofNat` (surrogate-pair
recombination is not modelled; no claim depends on it).  An unescaped
control character, a bad escape, or a lone trailing backslash fails, as in
Python's strict decoder. -/
def parseStringBody (acc : List Char) : List Char → Option (String × List Char)
  | [] => none
  | '"' :: rest => some (String.mk acc.reverse, rest)
  | '\\' :: 'u' :: a :: b :: c :: d :: rest =>
    (match hex4digits a b c d with
     | some code => parseStringBody (Char.ofNat code :: acc) rest
     | none => none)
  | '\\' :: e :: rest =>
    (match escChar e with
     | some c => parseStringBody (c :: acc) rest
     | none => none)
  | c :: rest =>
    if c.toNat < 32 || c = '\\' then none else parseStringBody (c :: acc) rest

/-- Split a run of decimal digits off the front of the input. -/
def digitSpan : List Char → List Char × List Char
  | [] => ([], [])
  | c :: rest =>
    if '0' ≤ c && c ≤ '9' then
      let p := digitSpan rest
      (c :: p.1, p.2)
    else ([], c :: rest)

/-- Numeric value of a digit run. -/
def digitsToNat (acc : Nat) : List Char → Nat
  | [] => acc
  | c :: rest => digitsToNat (acc * 10 + (c.toNat - '0'.toNat)) rest

/-- The integer part of a JSON number: `0` alone, or a nonzero digit
followed by digits. -/
def intDigits : List Char → Option (List Char × List Char)
  | [] => none
  | '0' :: rest => some (['0'], rest)
  | c :: rest =>
    if '1' ≤ c && c ≤ '9' then
      let p := digitSpan rest
      some (c :: p.1, p.2)
    else none

/-- Parse a JSON numeric literal (or `NaN`/`Infinity`/`-Infinity`). -/
def parseNumber (cs : List Char) : Option (JVal × List Char) :=
  if listStartsWith "NaN".data cs then some (.fnum "NaN", cs.drop 3)
  else if listStartsWith "Infinity".data cs then some (.fnum "Infinity", cs.drop 8)
  else if listStartsWith "-Infinity".data cs then some (.fnum "-Infinity", cs.drop 9)
  else
    let sgn := match cs with
      | '-' :: rest => (true, rest)
      | _ => (false, cs)
    match intDigits sgn.2 with
    | none => none
    | some (ids, cs2) =>
      let frac : Option (List Char × List Char) := match cs2 with
        | '.' :: r =>
          let p := digitSpan r
          if p.1.isEmpty then none else some (p.1, p.2)
        | _ => some ([], cs2)
      match frac with
      | none => none
      | some (fds, cs3) =>
        let expo : Option (List Char × List Char) := match cs3 with
          | 'e' :: '+' :: r | 'E' :: '+' :: r =>
            (let p := digitSpan r
             if p.1.isEmpty then none else some ('e' :: '+' :: p.1, p.2))
          | 'e' :: '-' :: r | 'E' :: '-' :: r =>
            (let p := digitSpan r
             if p.1.isEmpty then none else some ('e' :: '-' :: p.1, p.2))
          | 'e' :: r | 'E' :: r =>
            (let p := digitSpan r
             if p.1.isEmpty then none else some ('e' :: p.1, p.2))
          | _ => some ([], cs3)
        match expo with
        | none => none
        | some (eds, cs4) =>
          if fds.isEmpty && eds.isEmpty then
            some (.num (if sgn.1 then -(digitsToNat 0 ids : Int) else (digitsToNat 0 ids : Int)), cs4)
          else
            some (.fnum (String.mk ((if sgn.1 then ['-'] else []) ++ ids ++
              (if fds.isEmpty then [] else '.' :: fds) ++ eds)), cs4)

/-- Parser mode: a plain value, the remaining elements of an array being
accumulated, or the remaining members of an object being accumulated. -/
inductive JMode where
  | val : JMode
  | elems : List JVal → JMode
  | members : List (String × JVal) → JMode

/-- The fuelled JSON parser.  The fuel strictly decreases on every recursive
call; `json_loads` supplies fuel `2 * length + 2`, which is ample because
every recursive call follows the consumption of at least one input
character. -/
def parseF : Nat → JMode → List Char → Option (JVal × List Char)
  | 0, _, _ => none
  | Nat.succ fuel, .val, cs =>
    (match skipWs cs with
     | '"' :: rest => (parseStringBody [] rest).map (fun p => (.str p.1, p.2))
     | '[' :: rest =>
       (match skipWs rest with
        | ']' :: r2 => some (.list [], r2)
        | cs2 => parseF fuel (.elems []) cs2)
     | '\x7b' :: rest =>
       (match skipWs rest with
        | '\x7d' :: r2 => some (.obj [], r2)
        | cs2 => parseF fuel (.members []) cs2)
     | cs1 =>
       if listStartsWith "null".data cs1 then some (.null, cs1.drop 4)
       else if listStartsWith "true".data cs1 then some (.bool true, cs1.drop 4)
       else if listStartsWith "false".data cs1 then some (.bool false, cs1.drop 5)
       else parseNumber cs1)
  | Nat.succ fuel, .elems acc, cs =>
    (match parseF fuel .val cs with
     | none => none
     | some (v, rest) =>
       match skipWs rest with
       | ',' :: r2 => parseF fuel (.elems (v :: acc)) r2
       | ']' :: r2 => some (.list (v :: acc).reverse, r2)
       | _ => none)
  | Nat.succ fuel, .members acc, cs =>
    (match skipWs cs with
     | '"' :: rest =>
       (match parseStringBody [] rest with
        | none => none
        | some (k, r2) =>
          match skipWs r2 with
          | ':' :: r3 =>
            (match parseF fuel .val r3 with
             | none => none
             | some (v, r4) =>
               match skipWs r4 with
               | ',' :: r5 => parseF fuel (.members (dupsert acc k v)) r5
               | '\x7d' :: r5 => some (.obj (dupsert acc k v), r5)
               | _ => none)
          | _ => none)
     | _ => none)

/-- `json.loads`: parse one JSON value and reject trailing data. -/
def json_loads (s : String) : Option JVal :=
  match parseF (2 * s.length + 2) .val s.data with
  | some (v, rest) => if (skipWs rest).isEmpty then some v else none
  | none => none

/-!  ## `_extract_json` (owner.py lines 172-195; owner2.py lines 69-93 and
406-423 — the revisions differ only in the sentinel `sources_found` text) -/

/-- Python whitespace-stripping on a character list. -/
def pyStripWsList (cs : List Char) : List Char :=
  ((cs.dropWhile pyWsChar).reverse.dropWhile pyWsChar).reverse

/-- Split a character list at newline characters. -/
def splitOnNl : List Char → List (List Char)
  | [] => [[]]
  | '\n' :: rest => [] :: splitOnNl rest
  | c :: rest =>
    match splitOnNl rest with
    | [] => [[c]]
    | l :: ls => (c :: l) :: ls

/-- Python `s.splitlines()` restricted to `\n` separators (the only line
separator relevant to fenced model output): no trailing empty line. -/
def pySplitLines (cs : List Char) : List (List Char) :=
  if cs.isEmpty then []
  else match cs.getLast? with
    | some '\n' => (splitOnNl cs).dropLast
    | _ => splitOnNl cs

/-- `"\n".join(...)`. -/
def joinNl : List (List Char) → List Char
  | [] => []
  | [l] => l
  | l :: ls => l ++ '\n' :: joinNl ls

/-- The fence-stripping stage of `_extract_json`:
`cleaned = text.strip()`, and if it starts with a code fence, drop every
line whose stripped form starts with the fence marker. -/
def strip_code_fence (text : String) : String :=
  let cleaned := pyStripWs text
  if pyStartsWith cleaned "```" then
    String.mk (joinNl ((pySplitLines cleaned.data).filter
      (fun l => !listStartsWith "```".data (pyStripWsList l))))
  else cleaned

/-- Index of the first occurrence of a character (`s.find(c)`). -/
def firstIdx (c : Char) : List Char → Option Nat
  | [] => none
  | x :: rest =>
    if x == c then some 0
    else match firstIdx c rest with
      | some i => some (i + 1)
      | none => none

/-- Index of the last occurrence of a character (`s.rfind(c)`). -/
def lastIdx (c : Char) (cs : List Char) : Option Nat :=
  match firstIdx c cs.reverse with
  | some k => some (cs.length - 1 - k)
  | none => none

/-- The brace-slicing stage of `_extract_json`: `start = cleaned.find("{")`,
`end = cleaned.rfind("}")`, and if both exist with `end > start`, the
substring `cleaned[start:end+1]`. -/
def brace_candidate (s : String) : Option String :=
  match firstIdx '\x7b' s.data, lastIdx '\x7d' s.data with
  | some i, some j => if i < j then some (String.mk ((s.data.take (j + 1)).drop i)) else none
  | _, _ => none

/-- The parse-failure sentinel of `_extract_json`. -/
def parse_failure_sentinel (msg : String) : Dict :=
  [("owner_founder", .null), ("parent_company", .null),
   ("confidence", .str "low"), ("sources_found", .str msg)]

/-- `_extract_json`, parameterised by the sentinel (the two revisions differ
only in its `sources_found` text): try `json.loads` on the whole text, then
on the first-to-last-brace slice of the fence-stripped text, and fall back
to the sentinel. -/
def extract_json_with (sentinel : Dict) (text : String) : JVal :=
  match json_loads text with
  | some v => v
  | none =>
    match brace_candidate (strip_code_fence text) with
    | some cand =>
      (match json_loads cand with
       | some v => v
       | none => .obj sentinel)
    | none => .obj sentinel

/-- `_extract_json` of owner.py (sentinel text "Failed to parse response"). -/
def extract_json (text : String) : JVal :=
  extract_json_with (parse_failure_sentinel "Failed to parse response") text

/-- `_extract_json` of the final owner2.py revision (sentinel text
"Failed to parse AI response"). -/
def extract_json2 (text : String) : JVal :=
  extract_json_with (parse_failure_sentinel "Failed to parse AI response") text

/-- Whether a value is a mapping containing the given key. -/
def jvalHasKey (v : JVal) (k : String) : Bool :=
  match v with
  | .obj ms => (dget ms k).isSome
  | _ => false

/-- **C3 counterexample** — on input `"{}"` (valid JSON with no keys) the
extractor returns the parsed empty mapping, which does not contain
`owner_founder`; so the extractor does not always return a mapping with the
`owner_founder` and `confidence` keys. -/
theorem c3_extractor_counterexample :
    extract_json "\x7b\x7d" = JVal.obj [] ∧
    jvalHasKey (extract_json "\x7b\x7d") "owner_founder" = false := ⟨rfl, rfl⟩

/-- **C3 (amended)** — the extractor is total (never raises in the model);
whenever the direct parse fails and the brace-slice parse fails (or there is
no brace slice), it returns the fixed sentinel, which carries
`owner_founder=null`, `parent_company=null`, `confidence="low"`,
`sources_found="Failed to parse response"`; when a parse succeeds, the
parsed JSON value is returned as-is and need not contain those keys. -/
theorem c3_extractor_amended (text : String)
    (h1 : json_loads text = none)
    (h2 : ∀ c, brace_candidate (strip_code_fence text) = some c → json_loads c = none) :
    extract_json text = .obj (parse_failure_sentinel "Failed to parse response") ∧
    dget (parse_failure_sentinel "Failed to parse response") "owner_founder" = some .null ∧
    dget (parse_failure_sentinel "Failed to parse response") "parent_company" = some .null ∧
    dget (parse_failure_sentinel "Failed to parse response") "confidence" = some (.str "low") ∧
    dget (parse_failure_sentinel "Failed to parse response") "sources_found" =
      some (.str "Failed to parse response") := by
  refine ⟨?_, rfl, rfl, rfl, rfl⟩
  unfold extract_json extract_json_with
  rw [h1]
  cases hb : brace_candidate (strip_code_fence text) with
  | none => rfl
  | some c => simp [h2 c hb]

/-- **C3 witness** — concrete run: non-JSON prose falls through to the
sentinel. -/
theorem c3_extractor_amended_witness :
    extract_json "not json" = .obj (parse_failure_sentinel "Failed to parse response") :=
  (c3_extractor_amended "not json" rfl
    (fun c hc => by
      have hnone : brace_candidate (strip_code_fence "not json") = none := rfl
      rw [hnone] at hc
      exact Option.noConfusion hc)).1

/-!  ## Search aggregators

`search_company_serper_api` (owner2.py lines 447-498) and
`search_company_info` (owner.py lines 88-121).  The outcome of each outbound
HTTP call is supplied as an explicit parameter.  -/

/-- One search hit (title, snippet, url). -/
structure Hit where
  title : String
  snippet : String
  url : String
deriving Repr, DecidableEq

/-- One entry of the Serper `organic` array; each field is absent when the
corresponding key is missing (`item.get(...)` returning `None`). -/
structure SerperItem where
  link : Option String
  title : Option String
  snippet : Option String
deriving Repr, DecidableEq

/-- The outcome of one Serper HTTP call, one constructor per except-clause
of `search_company_serper_api`. -/
inductive SerperResponse where
  | ok : List SerperItem → SerperResponse
  | httpError : Nat → SerperResponse
  | netError : SerperResponse
  | badJson : SerperResponse
  | unexpectedErr : SerperResponse
deriving Repr, DecidableEq

/-- Whether the call succeeded (HTTP 200 with decodable JSON). -/
def SerperResponse.isOk : SerperResponse → Bool
  | .ok _ => true
  | _ => false

/-- `err_map.get(status_code, status_code)` of the HTTPError clause. -/
def serperHttpErrName (status : Nat) : String :=
  if status = 401 then "Unauthorized"
  else if status = 403 then "Forbidden"
  else if status = 429 then "Rate Limit/Quota Exceeded"
  else toString status

/-- The per-outcome failure message of the except-clauses of
`search_company_serper_api` (`none` for a successful call). -/
def serperFailMsg : SerperResponse → Option String
  | .ok _ => none
  | .httpError s => some ("Serper API Error: " ++ serperHttpErrName s)
  | .netError => some "Network error during search"
  | .badJson => some "Invalid response from search API"
  | .unexpectedErr => some "Unexpected search error"

/-- The item validity test `if url and title and snippet` (all present and
truthy), yielding the hit that would be appended. -/
def itemHit : SerperItem → Option Hit
  | ⟨some u, some t, some s⟩ =>
    if !u.data.isEmpty && !t.data.isEmpty && !s.data.isEmpty then some ⟨t, s, u⟩ else none
  | _ => none

/-- The accumulation loop over one response's organic results:
`if url and title and snippet and url not in seen_urls` (the `seen_urls`
set is modelled as the list of urls added so far). -/
def serperAccum (seen : List String) (acc : List Hit) :
    List SerperItem → List String × List Hit
  | [] => (seen, acc)
  | it :: rest =>
    match itemHit it with
    | some h =>
      if seen.contains h.url then serperAccum seen acc rest
      else serperAccum (h.url :: seen) (acc ++ [h]) rest
    | none => serperAccum seen acc rest

/-- The query loop of `search_company_serper_api`: a failed call returns
`(None, message)` immediately (short-circuit); after all queries the
accumulated hits are capped with `results[:20]`. -/
def serperLoop (seen : List String) (acc : List Hit) :
    List SerperResponse → Option (List Hit) × Option String
  | [] => (some (acc.take 20), none)
  | .ok items :: rest =>
    let p := serperAccum seen acc items
    serperLoop p.1 p.2 rest
  | r :: _ => (none, serperFailMsg r)

/-- `search_company_serper_api` (owner2.py lines 447-498).  The real
function issues 2 queries; the model accepts any sequence of per-query
outcomes. -/
def search_company_serper_api (apiKey : Option String)
    (responses : List SerperResponse) : Option (List Hit) × Option String :=
  match apiKey with
  | none => (none, some "Serper API Key not configured")
  | some k =>
    if k.data.isEmpty then (none, some "Serper API Key not configured")
    else serperLoop [] [] responses

/-- All valid hits of the successful calls of an outcome sequence, in call
order (the raw material the loop deduplicates). -/
def serperCandidates : List SerperResponse → List Hit
  | [] => []
  | .ok items :: rest => items.filterMap itemHit ++ serperCandidates rest
  | _ :: rest => serperCandidates rest

/-- First-occurrence-wins URL deduplication, written from the spec's words
("one ordered, URL-deduplicated list (first occurrence wins)"), used as the
reference the loop is proved to refine. -/
def dedupFirstWins (seen : List String) : List Hit → List Hit
  | [] => []
  | h :: rest =>
    if seen.contains h.url then dedupFirstWins seen rest
    else h :: dedupFirstWins (h.url :: seen) rest

/-!  DuckDuckGo scrape of owner.py.  -/

/-- Outcome of one DuckDuckGo query: the request raised (timeout, network
error), or a page came back with an HTTP status and parsed results — each
result either a complete (title, snippet, href) triple or skipped because
the title/snippet anchor was missing. -/
inductive DDGResponse where
  | raised : DDGResponse
  | page : Nat → List (Option (String × String × String)) → DDGResponse
deriving Repr, DecidableEq

/-- The per-result accumulation of `search_company_info` (dedup by url,
first occurrence wins; no truthiness check on the url). -/
def ddgAccum (seen : List String) (acc : List Hit) :
    List (Option (String × String × String)) → List String × List Hit
  | [] => (seen, acc)
  | none :: rest => ddgAccum seen acc rest
  | some (t, s, u) :: rest =>
    if seen.contains u then ddgAccum seen acc rest
    else ddgAccum (u :: seen) (acc ++ [⟨t, s, u⟩]) rest

/-- The query loop of `search_company_info`: any exception is swallowed and
the next query still runs; only HTTP 200 pages contribute hits, capped to
the top 5 results per query. -/
def ddgLoop (seen : List String) (acc : List Hit) :
    List DDGResponse → List String × List Hit
  | [] => (seen, acc)
  | .raised :: rest => ddgLoop seen acc rest
  | .page status results :: rest =>
    if status = 200 then
      let p := ddgAccum seen acc (results.take 5)
      ddgLoop p.1 p.2 rest
    else ddgLoop seen acc rest

/-- `search_company_info` (owner.py lines 88-121): accumulate across all
queries, swallow every failure, return `results[:12]`.  Its return type has
no failure channel at all. -/
def search_company_info (responses : List DDGResponse) : List Hit :=
  (ddgLoop [] [] responses).2.take 12

/-!  ## Properties of the Serper aggregation loop  -/

theorem serperFailMsg_isSome (r : SerperResponse) (h : r.isOk = false) :
    (serperFailMsg r).isSome = true := by
  cases r <;> simp_all [serperFailMsg, SerperResponse.isOk]

/-- The accumulation over one response is exactly first-occurrence-wins
deduplication of its valid items against the urls seen so far. -/
theorem serperAccum_eq (items : List SerperItem) :
    ∀ (seen : List String) (acc : List Hit),
    serperAccum seen acc items =
      (((dedupFirstWins seen (items.filterMap itemHit)).map Hit.url).reverse ++ seen,
       acc ++ dedupFirstWins seen (items.filterMap itemHit)) := by
  induction items with
  | nil => intro seen acc; simp [serperAccum, dedupFirstWins]
  | cons it rest ih =>
    intro seen acc
    cases hit : itemHit it with
    | none =>
      simp only [serperAccum, hit]
      rw [List.filterMap_cons_none hit]
      exact ih seen acc
    | some h =>
      simp only [serperAccum, hit]
      rw [List.filterMap_cons_some hit]
      by_cases hs : seen.contains h.url
      · rw [if_pos hs]
        simp only [dedupFirstWins]
        rw [if_pos hs]
        exact ih seen acc
      · rw [if_neg hs]
        simp only [dedupFirstWins]
        rw [if_neg hs, ih (h.url :: seen) (acc ++ [h])]
        simp [List.append_assoc]

/-- Splitting first-occurrence-wins deduplication across an append. -/
theorem dedupFirstWins_append (c1 : List Hit) :
    ∀ (seen : List String) (c2 : List Hit),
    dedupFirstWins seen (c1 ++ c2) =
      dedupFirstWins seen c1 ++
        dedupFirstWins (((dedupFirstWins seen c1).map Hit.url).reverse ++ seen) c2 := by
  induction c1 with
  | nil => intro seen c2; simp [dedupFirstWins]
  | cons h c1' ih =>
    intro seen c2
    rw [List.cons_append]
    by_cases hs : seen.contains h.url
    · simp only [dedupFirstWins]
      rw [if_pos hs, if_pos hs]
      exact ih seen c2
    · simp only [dedupFirstWins]
      rw [if_neg hs, if_neg hs, ih (h.url :: seen) c2]
      simp [List.append_assoc]

/-- The query loop on an all-successful outcome sequence returns the capped
deduplication of all candidate hits. -/
theorem serperLoop_ok (rs : List SerperResponse) :
    ∀ (seen : List String) (acc : List Hit), (∀ r ∈ rs, r.isOk = true) →
    serperLoop seen acc rs =
      (some ((acc ++ dedupFirstWins seen (serperCandidates rs)).take 20), none) := by
  induction rs with
  | nil => intro seen acc _; simp [serperLoop, serperCandidates, dedupFirstWins]
  | cons r rest ih =>
    intro seen acc hok
    cases r with
    | ok items =>
      rw [serperLoop]
      rw [serperAccum_eq items seen acc]
      rw [ih _ _ (fun x hx => hok x (List.mem_cons_of_mem _ hx))]
      rw [serperCandidates, dedupFirstWins_append]
      simp [List.append_assoc]
    | httpError s => exact absurd (hok _ (List.mem_cons_self _ _)) (by simp [SerperResponse.isOk])
    | netError => exact absurd (hok _ (List.mem_cons_self _ _)) (by simp [SerperResponse.isOk])
    | badJson => exact absurd (hok _ (List.mem_cons_self _ _)) (by simp [SerperResponse.isOk])
    | unexpectedErr => exact absurd (hok _ (List.mem_cons_self _ _)) (by simp [SerperResponse.isOk])

/-- The query loop short-circuits at the first failed call, returning its
failure message and no hit list — whatever follows. -/
theorem serperLoop_fail (rs1 : List SerperResponse) :
    ∀ (seen : List String) (acc : List Hit) (r : SerperResponse) (rs2 : List SerperResponse),
    (∀ x ∈ rs1, x.isOk = true) → r.isOk = false →
    serperLoop seen acc (rs1 ++ r :: rs2) = (none, serperFailMsg r) := by
  induction rs1 with
  | nil =>
    intro seen acc r rs2 _ hr
    cases r <;> simp_all [serperLoop, SerperResponse.isOk]
  | cons x rs1' ih =>
    intro seen acc r rs2 hok hr
    cases x with
    | ok items =>
      rw [List.cons_append, serperLoop]
      exact ih _ _ r rs2 (fun y hy => hok y (List.mem_cons_of_mem _ hy)) hr
    | httpError s => exact absurd (hok _ (List.mem_cons_self _ _)) (by simp [SerperResponse.isOk])
    | netError => exact absurd (hok _ (List.mem_cons_self _ _)) (by simp [SerperResponse.isOk])
    | badJson => exact absurd (hok _ (List.mem_cons_self _ _)) (by simp [SerperResponse.isOk])
    | unexpectedErr => exact absurd (hok _ (List.mem_cons_self _ _)) (by simp [SerperResponse.isOk])

/-- The loop always yields exactly one of a hit list or a failure message. -/
theorem serperLoop_exclusive (rs : List SerperResponse) :
    ∀ (seen : List String) (acc : List Hit),
    ((serperLoop seen acc rs).1.isSome ∧ (serperLoop seen acc rs).2 = none) ∨
      ((serperLoop seen acc rs).1 = none ∧ (serperLoop seen acc rs).2.isSome) := by
  induction rs with
  | nil => intro seen acc; left; simp [serperLoop]
  | cons r rest ih =>
    intro seen acc
    cases r with
    | ok items => rw [serperLoop]; exact ih _ _
    | httpError s => right; simp [serperLoop, serperFailMsg]
    | netError => right; simp [serperLoop, serperFailMsg]
    | badJson => right; simp [serperLoop, serperFailMsg]
    | unexpectedErr => right; simp [serperLoop, serperFailMsg]

/-- Every hit surviving deduplication has a url not among the seen urls. -/
theorem dedupFirstWins_not_seen (hs : List Hit) :
    ∀ (seen : List String) (h : Hit), h ∈ dedupFirstWins seen hs →
      seen.contains h.url = false := by
  induction hs with
  | nil => intro seen h hmem; simp [dedupFirstWins] at hmem
  | cons c rest ih =>
    intro seen h hmem
    by_cases hc : seen.contains c.url
    · rw [dedupFirstWins, if_pos hc] at hmem
      exact ih seen h hmem
    · rw [dedupFirstWins, if_neg hc] at hmem
      rcases List.mem_cons.mp hmem with rfl | hmem'
      · simpa using hc
      · have := ih (c.url :: seen) h hmem'
        simp only [List.contains_cons, Bool.or_eq_false_iff] at this
        exact this.2

/-- The deduplicated list has pairwise-distinct urls. -/
theorem dedupFirstWins_nodup (hs : List Hit) :
    ∀ (seen : List String), ((dedupFirstWins seen hs).map Hit.url).Nodup := by
  induction hs with
  | nil => intro seen; simp [dedupFirstWins]
  | cons c rest ih =>
    intro seen
    by_cases hc : seen.contains c.url
    · rw [dedupFirstWins, if_pos hc]; exact ih seen
    · rw [dedupFirstWins, if_neg hc]
      rw [List.map_cons, List.nodup_cons]
      refine ⟨?_, ih (c.url :: seen)⟩
      intro hmem
      rcases List.mem_map.mp hmem with ⟨h, hh, hurl⟩
      have := dedupFirstWins_not_seen rest (c.url :: seen) h hh
      simp only [List.contains_cons, Bool.or_eq_false_iff] at this
      rw [hurl] at this
      simpa using this.1

/-- Each surviving hit is the first candidate bearing its url (first
occurrence wins). -/
theorem dedupFirstWins_first (hs : List Hit) :
    ∀ (seen : List String) (h : Hit), h ∈ dedupFirstWins seen hs →
      hs.find? (fun c => c.url == h.url) = some h := by
  induction hs with
  | nil => intro seen h hmem; simp [dedupFirstWins] at hmem
  | cons c rest ih =>
    intro seen h hmem
    by_cases hc : seen.contains c.url
    · rw [dedupFirstWins, if_pos hc] at hmem
      have hne : h.url ≠ c.url := by
        intro heq
        have := dedupFirstWins_not_seen rest seen h hmem
        rw [heq] at this
        rw [this] at hc
        exact Bool.noConfusion hc
      rw [List.find?_cons_of_neg _ (by simpa using fun a => absurd a.symm hne)]
      exact ih seen h hmem
    · rw [dedupFirstWins, if_neg hc] at hmem
      rcases List.mem_cons.mp hmem with rfl | hmem'
      · rw [List.find?_cons_of_pos _ (by simp)]
      · have hseen := dedupFirstWins_not_seen rest (c.url :: seen) h hmem'
        simp only [List.contains_cons, Bool.or_eq_false_iff] at hseen
        have hne : h.url ≠ c.url := by
          intro heq
          rw [heq] at hseen
          simpa using hseen.1
        rw [List.find?_cons_of_neg _ (by simpa using fun a => absurd a.symm hne)]
        exact ih (c.url :: seen) h hmem'

/-- **C5 counterexample** — the owner.py revision of the aggregator
(`search_company_info`) has no failure channel at all: with the provider
rejecting every query (request exceptions, or HTTP 401 on all four
queries), it returns the empty hit list, indistinguishable from a genuine
"no results". -/
theorem c5_aggregator_counterexample :
    search_company_info [.raised, .raised, .raised, .raised] = [] ∧
    search_company_info [.page 401 [], .page 401 [], .page 401 [], .page 401 []] = [] :=
  ⟨rfl, rfl⟩

/-- **C5 (amended)** — the Serper aggregator returns either a hit list or a
failure reason, never both and never neither (and never an exception, being
total); a failed provider call short-circuits the remaining queries and
yields the per-cause failure message, not an empty list.  (The owner.py
DuckDuckGo aggregator lacks the failure channel; see the counterexample.) -/
theorem c5_serper_contract :
    (∀ (key : Option String) (rs : List SerperResponse),
      ((search_company_serper_api key rs).1.isSome ∧
        (search_company_serper_api key rs).2 = none) ∨
      ((search_company_serper_api key rs).1 = none ∧
        (search_company_serper_api key rs).2.isSome)) ∧
    (∀ (k : String) (rs1 : List SerperResponse) (r : SerperResponse)
        (rs2 : List SerperResponse), k.data.isEmpty = false →
      (∀ x ∈ rs1, x.isOk = true) → r.isOk = false →
      search_company_serper_api (some k) (rs1 ++ r :: rs2) = (none, serperFailMsg r) ∧
      (serperFailMsg r).isSome = true) := by
  constructor
  · intro key rs
    match key with
    | none => right; simp [search_company_serper_api]
    | some k =>
      simp only [search_company_serper_api]
      by_cases hk : k.data.isEmpty
      · rw [if_pos hk]; right; simp
      · rw [if_neg hk]; exact serperLoop_exclusive rs [] []
  · intro k rs1 r rs2 hk hok hr
    refine ⟨?_, serperFailMsg_isSome r hr⟩
    simp only [search_company_serper_api]
    rw [if_neg (by simp [hk])]
    exact serperLoop_fail rs1 [] [] r rs2 hok hr

/-- **C5 witness** — concrete run: a quota-exhausted second call
short-circuits the third query and yields the failure message. -/
theorem c5_serper_contract_witness :
    search_company_serper_api (some "key") [.ok [], .httpError 429, .ok []] =
      (none, some "Serper API Error: Rate Limit/Quota Exceeded") := by
  have h := c5_serper_contract.2 "key" [.ok []] (.httpError 429) [.ok []] rfl
    (fun x hx => by
      rcases List.mem_cons.mp hx with rfl | hx'
      · rfl
      · simp at hx') rfl
  exact h.1

/-- **C9** — on an all-successful run, the Serper aggregator returns
exactly the first-occurrence-wins URL-deduplication of the hits accumulated
across the queries in order, capped at 20 (within the claimed 12-20 range):
the returned urls are pairwise distinct, each returned hit is the first
candidate bearing its url, and at most 20 hits are returned. -/
theorem c9_dedup_and_cap (k : String) (rs : List SerperResponse)
    (hk : k.data.isEmpty = false) (hok : ∀ r ∈ rs, r.isOk = true) :
    search_company_serper_api (some k) rs =
      (some ((dedupFirstWins [] (serperCandidates rs)).take 20), none) ∧
    ((dedupFirstWins [] (serperCandidates rs)).take 20).length ≤ 20 ∧
    (((dedupFirstWins [] (serperCandidates rs)).take 20).map Hit.url).Nodup ∧
    ∀ h ∈ (dedupFirstWins [] (serperCandidates rs)).take 20,
      (serperCandidates rs).find? (fun c => c.url == h.url) = some h := by
  refine ⟨?_, ?_, ?_, ?_⟩
  · simp only [search_company_serper_api]
    rw [if_neg (by simp [hk])]
    rw [serperLoop_ok rs [] [] hok]
    simp
  · exact List.length_take_le _ _
  · exact List.Nodup.sublist ((List.take_sublist _ _).map Hit.url)
      (dedupFirstWins_nodup _ [])
  · intro h hmem
    exact dedupFirstWins_first _ [] h (List.mem_of_mem_take hmem)

/-- **C9 witness** — concrete run: two queries sharing url `u1`; the
aggregate contains `u1` once, at its first-seen position. -/
theorem c9_dedup_and_cap_witness :
    search_company_serper_api (some "key")
      [.ok [⟨some "u1", some "t1", some "s1"⟩, ⟨some "u2", some "t2", some "s2"⟩],
       .ok [⟨some "u1", some "t3", some "s3"⟩]] =
      (some [⟨"t1", "s1", "u1"⟩, ⟨"t2", "s2", "u2"⟩], none) := by
  have h := (c9_dedup_and_cap "key"
    [.ok [⟨some "u1", some "t1", some "s1"⟩, ⟨some "u2", some "t2", some "s2"⟩],
     .ok [⟨some "u1", some "t3", some "s3"⟩]] rfl (fun r hr => by
      rcases List.mem_cons.mp hr with rfl | hr'
      · rfl
      · rcases List.mem_cons.mp hr' with rfl | hr''
        · rfl
        · simp at hr'')).1
  exact h.trans rfl

/-!  ## The per-company pipelines (`_tier2_analysis` of owner.py lines
228-273 and of owner2.py lines 536-586), `_find_owner_linkedin` (owner.py
lines 123-145)  -/

/-- Whether `pat` occurs as a contiguous sublist (Python `pat in s`). -/
def containsSubList (pat : List Char) : List Char → Bool
  | [] => listStartsWith pat []
  | c :: rest => listStartsWith pat (c :: rest) || containsSubList pat rest

/-- Python substring test `sub in s`. -/
def pyContainsSub (s sub : String) : Bool := containsSubList sub.data s.data

/-- The candidate scan of `_find_owner_linkedin`: first href containing
`linkedin.com/in/`, absolutised when it starts with `/`. -/
def findLinkedinUrl : List String → Option String
  | [] => none
  | url :: rest =>
    if pyContainsSub url "linkedin.com/in/" then
      some (if pyStartsWith url "/" then "https://www.linkedin.com" ++ url else url)
    else findLinkedinUrl rest

/-- `_find_owner_linkedin` (owner.py lines 123-145): `None` for an empty
owner name; otherwise scan the hrefs of the top 3 results of the targeted
query (supplied as a parameter; empty when the query failed or returned a
non-200 page). -/
def find_owner_linkedin (owner_name : String) (candidates : List String) : Option String :=
  if owner_name.data.isEmpty then none
  else findLinkedinUrl (candidates.take 3)

/-- The `error_result` lambda of owner2 `_tier2_analysis` (line 545). -/
def error_result (company_name location : JVal) (msg : String) : Dict :=
  [("company", company_name), ("location", location), ("owner_founder", .null),
   ("parent_company", .null), ("confidence", .str "low"), ("error", .str msg),
   ("sources_found", .str "Analysis failed due to error")]

/-- The no-results record of owner2 `_tier2_analysis` (line 560):
`error=None`. -/
def no_results_record2 (company_name location : JVal) : Dict :=
  [("company", company_name), ("location", location), ("owner_founder", .null),
   ("parent_company", .null), ("confidence", .str "low"), ("error", .null),
   ("sources_found", .str "No web results found via Serper API")]

/-- The Gemini/parse/normalize stage of owner2 `_tier2_analysis` (lines
562-581), reached when the search returned a non-empty hit list.  The
`match` on the extraction result mirrors Python: `_coerce_output` on a
non-mapping raises `AttributeError`, which the surrounding `except` turns
into the `error_result` with message
`Unexpected analysis exception: <AttributeError text>`. -/
def tier2_analyze_hits (company_name location : JVal) (modelAvailable : Bool)
    (gemini : Except String (Option String)) : Dict :=
  if !modelAvailable then
    error_result company_name location "Server configuration error: AI model unavailable"
  else
    match gemini with
    | .error _ => error_result company_name location "Gemini API Error"
    | .ok t? =>
      if (pyStripWs (t?.getD "")).data.isEmpty then
        error_result company_name location "Gemini returned empty response"
      else
        match extract_json2 (pyStripWs (t?.getD "")) with
        | .obj d =>
          dsetdefault (("company", company_name) :: ("location", location) :: coerce_output d)
            "error" .null
        | v =>
          error_result company_name location
            ("Unexpected analysis exception: \x27" ++ pyTypeName v ++
              "\x27 object has no attribute \x27get\x27")

/-- The external-call outcomes one owner2 pipeline run depends on. -/
structure Tier2Env where
  apiKey : Option String
  responses : List SerperResponse
  modelAvailable : Bool
  gemini : Except String (Option String)
deriving Repr

/-- `_tier2_analysis` of owner2.py (lines 536-586): search via Serper, then
the no-results / error / analysis branches.  (The `if search_error:` test
is truthiness on the message; every message the search can produce is a
fixed non-empty string, so it is modelled as presence.) -/
def tier2_analysis_owner2 (ci : Dict) (env : Tier2Env) : Dict :=
  match search_company_serper_api env.apiKey env.responses with
  | (_, some msg) =>
    error_result (dgetD ci "name" (.str "")) (dgetD ci "location" (.str "")) msg
  | (hitsOpt, none) =>
    if (hitsOpt.getD []).isEmpty then
      no_results_record2 (dgetD ci "name" (.str "")) (dgetD ci "location" (.str ""))
    else
      tier2_analyze_hits (dgetD ci "name" (.str "")) (dgetD ci "location" (.str ""))
        env.modelAvailable env.gemini

/-- The except-branch record of owner.py `_tier2_analysis` (lines 269-273):
`error=str(e)`, `sources_found` mentioning the hit count. -/
def analysis_failed_record (ci : Dict) (hits : List Hit) (msg : String) : Dict :=
  [("company", dgetD ci "name" (.str "")), ("location", dgetD ci "location" (.str "")),
   ("owner_founder", .null), ("parent_company", .null), ("confidence", .str "low"),
   ("error", .str msg),
   ("sources_found", .str ("Found " ++ toString hits.length ++ " results but analysis failed"))]

/-- The targeted-enhancement block of owner.py `_tier2_analysis` (lines
253-263): runs when `owner` is truthy and `founder_linkedin` is falsy;
a found URL is written into `founder_linkedin` and a `low`/`medium`
confidence is raised to `medium`. -/
def apply_found_url (normalized : Dict) (url : String) : Dict :=
  if url.data.isEmpty then normalized
  else
    (if (match dgetD (dupsert normalized "founder_linkedin" (.str url)) "confidence" .null with
         | .str c => c == "low" || c == "medium"
         | _ => false) then
      dupsert (dupsert normalized "founder_linkedin" (.str url)) "confidence" (.str "medium")
    else dupsert normalized "founder_linkedin" (.str url))

/-- The two `if`s of the enhancement block once a URL came back:
`if targeted_linkedin:` (truthiness) and the `low`/`medium` upgrade. -/
def enhance_normalized (normalized : Dict) (enhCandidates : List String) : Dict :=
  if pyTruthy (dgetD normalized "owner_founder" .null) &&
      !pyTruthy (dgetD normalized "founder_linkedin" .null) then
    match find_owner_linkedin (pyStr (dgetD normalized "owner_founder" .null)) enhCandidates with
    | some url => apply_found_url normalized url
    | none => normalized
  else normalized

/-- `_tier2_analysis` of owner.py (lines 228-273): `hits` is the aggregated
search result, `gemini` the outcome of model construction + call (`.error`
carries `str(e)`), `enhCandidates` the hrefs the targeted owner-LinkedIn
query would yield.  The success record carries no `error` key. -/
def tier2_analysis_owner (ci : Dict) (hits : List Hit)
    (gemini : Except String (Option String)) (enhCandidates : List String) : Dict :=
  if hits.isEmpty then
    [("company", dgetD ci "name" (.str "")), ("location", dgetD ci "location" (.str "")),
     ("owner_founder", .null), ("parent_company", .null), ("confidence", .str "low"),
     ("error", .str "No search results found"), ("sources_found", .str "No web results")]
  else
    match gemini with
    | .error e => analysis_failed_record ci hits e
    | .ok t? =>
      match extract_json (pyStripWs (t?.getD "")) with
      | .obj d =>
        ("company", dgetD ci "name" (.str "")) :: ("location", dgetD ci "location" (.str "")) ::
          enhance_normalized (coerce_output d) enhCandidates
      | v =>
        analysis_failed_record ci hits
          ("\x27" ++ pyTypeName v ++ "\x27 object has no attribute \x27get\x27")

/-- The keys every per-company result record is claimed to carry. -/
def base_result_keys : List String :=
  ["company", "location", "owner_founder", "parent_company", "confidence",
   "sources_found", "error"]

/-!  ## Dict lemmas for the pipeline records  -/

theorem dget_dupsert_self (d : Dict) (k : String) (v : JVal) :
    dget (dupsert d k v) k = some v := by
  induction d with
  | nil => simp [dupsert, dget]
  | cons p rest ih =>
    obtain ⟨k', w⟩ := p
    by_cases hk : (k' == k) = true
    · simp [dupsert, hk, dget]
    · simp [dupsert, hk, dget, ih]

theorem dget_dupsert_other (d : Dict) (k k' : String) (v : JVal) (h : (k == k') = false) :
    dget (dupsert d k v) k' = dget d k' := by
  induction d with
  | nil => simp [dupsert, dget, h]
  | cons p rest ih =>
    obtain ⟨k0, w⟩ := p
    by_cases hk : (k0 == k) = true
    · have hk0 : k0 = k := by simpa using hk
      subst hk0
      simp [dupsert, dget, h]
    · simp [dupsert, hk, dget, ih]

theorem dsetdefault_eq_append (d : Dict) (k : String) (v : JVal) (h : dget d k = none) :
    dsetdefault d k v = d ++ [(k, v)] := by
  unfold dsetdefault
  rw [h]

theorem error_result_keys (cn loc : JVal) (msg : String) :
    ∀ k ∈ base_result_keys, (dget (error_result cn loc msg) k).isSome = true := by
  intro k hk
  fin_cases hk <;> rfl

theorem no_results_record2_keys (cn loc : JVal) :
    ∀ k ∈ base_result_keys, (dget (no_results_record2 cn loc) k).isSome = true := by
  intro k hk
  fin_cases hk <;> rfl

theorem success_record2_keys (cn loc : JVal) (d : Dict) :
    ∀ k ∈ base_result_keys,
      (dget (dsetdefault (("company", cn) :: ("location", loc) :: coerce_output d)
        "error" .null) k).isSome = true := by
  intro k hk
  rw [dsetdefault_eq_append (("company", cn) :: ("location", loc) :: coerce_output d)
    "error" .null rfl]
  fin_cases hk <;> rfl

/-- **C1 (amended)** — the owner2 per-company pipeline is total (no
exception reaches the caller) and every branch returns a record containing
`company`, `location`, `owner_founder`, `parent_company`, `confidence`,
`sources_found` and `error`; the no-results and error branches do not carry
the remaining four AnalysisResult fields (`company_linkedin`,
`founder_linkedin`, `affiliated_companies`, `ownership_type`), which appear
only in the success-path record. -/
theorem c1_result_shape (ci : Dict) (env : Tier2Env) :
    ∀ k ∈ base_result_keys, (dget (tier2_analysis_owner2 ci env) k).isSome = true := by
  unfold tier2_analysis_owner2 tier2_analyze_hits
  repeat' split
  all_goals
    first
    | exact error_result_keys _ _ _
    | exact no_results_record2_keys _ _
    | exact success_record2_keys _ _ _

/-- **C1 counterexample** — the no-results branch of owner2
`_tier2_analysis` returns a record with no `ownership_type` key (so not all
8 AnalysisResult fields), and the owner.py success branch returns a record
with no `error` key. -/
theorem c1_counterexample :
    dget (tier2_analysis_owner2 [("name", .str "Acme Co"), ("location", .str "")]
        ⟨some "key", [.ok [], .ok []], true, .ok (some "")⟩) "ownership_type" = none ∧
    dget (tier2_analysis_owner [("name", .str "Acme Co"), ("location", .str "")]
        [⟨"t", "s", "u"⟩] (.ok (some "\x7b\x7d")) []) "error" = none :=
  ⟨rfl, rfl⟩

/-- **C6 (amended)** — in the final (Serper) revision, a search step with
zero hits yields `owner_founder=null`, `confidence="low"`, `error=null` and
the no-web-results `sources_found`; the earlier owner.py revision instead
sets `error="No search results found"` (see the counterexample). -/
theorem c6_no_results (ci : Dict) (env : Tier2Env)
    (h : search_company_serper_api env.apiKey env.responses = (some [], none)) :
    dget (tier2_analysis_owner2 ci env) "owner_founder" = some .null ∧
    dget (tier2_analysis_owner2 ci env) "confidence" = some (.str "low") ∧
    dget (tier2_analysis_owner2 ci env) "error" = some .null ∧
    dget (tier2_analysis_owner2 ci env) "sources_found" =
      some (.str "No web results found via Serper API") := by
  unfold tier2_analysis_owner2
  rw [h]
  exact ⟨rfl, rfl, rfl, rfl⟩

/-- **C6 witness** — concrete zero-hit run through the owner2 pipeline. -/
theorem c6_no_results_witness :
    dget (tier2_analysis_owner2 [("name", .str "Acme Co"), ("location", .str "")]
        ⟨some "key", [.ok [], .ok []], true, .ok (some "x")⟩) "error" = some .null ∧
    dget (tier2_analysis_owner2 [("name", .str "Acme Co"), ("location", .str "")]
        ⟨some "key", [.ok [], .ok []], true, .ok (some "x")⟩) "confidence" =
      some (.str "low") :=
  ⟨(c6_no_results [("name", .str "Acme Co"), ("location", .str "")]
      ⟨some "key", [.ok [], .ok []], true, .ok (some "x")⟩ rfl).2.2.1,
   (c6_no_results [("name", .str "Acme Co"), ("location", .str "")]
      ⟨some "key", [.ok [], .ok []], true, .ok (some "x")⟩ rfl).2.1⟩

/-- **C6 counterexample** — in the owner.py revision, the zero-hit branch
sets `error` to the string "No search results found", not null. -/
theorem c6_counterexample :
    dget (tier2_analysis_owner [("name", .str "Acme Co"), ("location", .str "")] []
        (.ok (some "")) []) "error" = some (.str "No search results found") ∧
    dget (tier2_analysis_owner [("name", .str "Acme Co"), ("location", .str "")] []
        (.ok (some "")) []) "error" ≠ some JVal.null := by
  have h2 : dget (tier2_analysis_owner [("name", .str "Acme Co"), ("location", .str "")] []
      (.ok (some "")) []) "error" = some (.str "No search results found") := rfl
  refine ⟨h2, ?_⟩
  rw [h2]
  simp

/-- **C7 (amended)** — the owner.py success path applies the targeted
enhancer to the normalized result; the enhancement block acts exactly when
the normalized `owner_founder` is truthy and `founder_linkedin` is falsy
(for string-or-null values this coincides with the claimed
non-null/null test, but not for other JSON types — see the counterexample);
when it finds a matching personal-profile URL it writes it into
`founder_linkedin` and raises a `low`/`medium` confidence to `medium`
(a `high` confidence is kept: never raised to high from below, never
downgraded); when it finds nothing the result is returned unchanged. -/
theorem c7_enhancer (n : Dict) (cands : List String) :
    (¬ (pyTruthy (dgetD n "owner_founder" .null) = true ∧
        pyTruthy (dgetD n "founder_linkedin" .null) = false) →
      enhance_normalized n cands = n) ∧
    (pyTruthy (dgetD n "owner_founder" .null) = true →
      pyTruthy (dgetD n "founder_linkedin" .null) = false →
      find_owner_linkedin (pyStr (dgetD n "owner_founder" .null)) cands = none →
      enhance_normalized n cands = n) ∧
    (∀ url, pyTruthy (dgetD n "owner_founder" .null) = true →
      pyTruthy (dgetD n "founder_linkedin" .null) = false →
      find_owner_linkedin (pyStr (dgetD n "owner_founder" .null)) cands = some url →
      url.data.isEmpty = false →
      dget (enhance_normalized n cands) "founder_linkedin" = some (.str url) ∧
      ((dget n "confidence" = some (.str "low") ∨ dget n "confidence" = some (.str "medium")) →
        dget (enhance_normalized n cands) "confidence" = some (.str "medium")) ∧
      (dget n "confidence" = some (.str "high") →
        dget (enhance_normalized n cands) "confidence" = some (.str "high"))) ∧
    (∀ (ci : Dict) (hits : List Hit) (t? : Option String) (d : Dict),
      hits.isEmpty = false →
      extract_json (pyStripWs (t?.getD "")) = .obj d →
      tier2_analysis_owner ci hits (.ok t?) cands =
        ("company", dgetD ci "name" (.str "")) ::
          ("location", dgetD ci "location" (.str "")) ::
          enhance_normalized (coerce_output d) cands) := by
  refine ⟨?_, ?_, ?_, ?_⟩
  · intro h
    unfold enhance_normalized
    rw [if_neg]
    intro hcc
    simp at hcc
    exact h hcc
  · intro hA hB hf
    unfold enhance_normalized
    rw [if_pos (by rw [hA, hB]; rfl), hf]
  · intro url hA hB hf hne
    have henh : enhance_normalized n cands = apply_found_url n url := by
      unfold enhance_normalized
      rw [if_pos (by rw [hA, hB]; rfl), hf]
    rw [henh]
    unfold apply_found_url
    rw [if_neg (by simp [hne])]
    have hconf : dget (dupsert n "founder_linkedin" (.str url)) "confidence" =
        dget n "confidence" :=
      dget_dupsert_other n "founder_linkedin" "confidence" (.str url) rfl
    refine ⟨?_, ?_, ?_⟩
    · by_cases hlm : (match dgetD (dupsert n "founder_linkedin" (.str url)) "confidence" .null with
          | .str c => c == "low" || c == "medium"
          | _ => false) = true
      · rw [if_pos hlm]
        rw [dget_dupsert_other _ "confidence" "founder_linkedin" _ rfl]
        exact dget_dupsert_self n "founder_linkedin" (.str url)
      · rw [if_neg hlm]
        exact dget_dupsert_self n "founder_linkedin" (.str url)
    · intro hcl
      have hlm : (match dgetD (dupsert n "founder_linkedin" (.str url)) "confidence" .null with
          | .str c => c == "low" || c == "medium"
          | _ => false) = true := by
        rcases hcl with hcl | hcl <;> simp [dgetD, hconf, hcl]
      rw [if_pos hlm]
      exact dget_dupsert_self _ "confidence" (.str "medium")
    · intro hch
      have hlm : (match dgetD (dupsert n "founder_linkedin" (.str url)) "confidence" .null with
          | .str c => c == "low" || c == "medium"
          | _ => false) = false := by
        simp [dgetD, hconf, hch]
      rw [if_neg (by simp [hlm])]
      rw [hconf, hch]
  · intro ci hits t? d hne hext
    unfold tier2_analysis_owner
    rw [if_neg (by simp [hne])]
    simp only [hext]

/-- **C7 counterexample** — a JSON `false` owner is non-null with a null
`founder_linkedin`, and the targeted search would find a matching profile
URL, yet the enhancer does not run (Python truthiness, not a null test):
the final `founder_linkedin` stays null instead of the found URL. -/
theorem c7_counterexample :
    dget (tier2_analysis_owner [("name", .str "Acme"), ("location", .str "")]
        [⟨"t", "s", "u"⟩]
        (.ok (some "\x7b\"owner_founder\": false\x7d"))
        ["https://www.linkedin.com/in/jane"]) "founder_linkedin" = some .null ∧
    dget (coerce_output [("owner_founder", JVal.bool false)]) "owner_founder" =
      some (.bool false) ∧
    find_owner_linkedin "False" ["https://www.linkedin.com/in/jane"] =
      some "https://www.linkedin.com/in/jane" := ⟨rfl, rfl, rfl⟩

/-- **C7 witness** — concrete run: owner "John Smith" with missing
founder_linkedin and low confidence; the enhancer fills the found profile
URL and raises confidence to medium. -/
theorem c7_enhancer_witness :
    dget (enhance_normalized
        (coerce_output [("owner_founder", .str "John Smith"), ("confidence", .str "low")])
        ["https://www.linkedin.com/in/johnsmith"]) "founder_linkedin" =
      some (.str "https://www.linkedin.com/in/johnsmith") ∧
    dget (enhance_normalized
        (coerce_output [("owner_founder", .str "John Smith"), ("confidence", .str "low")])
        ["https://www.linkedin.com/in/johnsmith"]) "confidence" = some (.str "medium") := by
  have h := (c7_enhancer
    (coerce_output [("owner_founder", .str "John Smith"), ("confidence", .str "low")])
    ["https://www.linkedin.com/in/johnsmith"]).2.2.1
    "https://www.linkedin.com/in/johnsmith" rfl rfl rfl rfl
  exact ⟨h.1, h.2.1 (Or.inl rfl)⟩

/-!  ## `handle_owner_details_request` (owner2.py lines 592-639; owner.py
lines 19-52) — the construction of the response `data` array for a
well-formed `companies` list  -/

/-- The immediate validation-error record of the owner2 handler (line 614). -/
def missing_name_record : Dict :=
  [("company", .null), ("location", .null), ("owner_founder", .null),
   ("parent_company", .null), ("confidence", .str "low"),
   ("error", .str "Missing company name"), ("sources_found", .null)]

/-- One record's company_info in the owner2 handler (lines 617-620):
`location = f"{city}, {state}".strip(", ") if city or state else ""`. -/
def toCompanyInfo (c : Dict) : Dict :=
  [("name", dgetD c "name" .null),
   ("location", .str (if pyTruthy (dgetD c "city" (.str "")) ||
        pyTruthy (dgetD c "state" (.str "")) then
      pyStripChars [',', ' ']
        (pyStr (dgetD c "city" (.str "")) ++ ", " ++ pyStr (dgetD c "state" (.str "")))
    else ""))]

/-- The validation loop of the owner2 handler (lines 609-620): one pass
splitting records with a truthy `name` (companies_to_process) from the rest
(validation_errors), both in input order. -/
def validateCompanies : List Dict → List Dict × List Dict
  | [] => ([], [])
  | c :: rest =>
    let p := validateCompanies rest
    if pyTruthy (dgetD c "name" .null) then (toCompanyInfo c :: p.1, p.2)
    else (p.1, missing_name_record :: p.2)

/-- The owner2 handler's `data` array (lines 609-635): valid records are
mapped through the pipeline by `executor.map`, which yields results in
submission order regardless of completion order, and
`final_data = validation_errors + all_results`.  The i-th dispatched
pipeline run sees the external world `envs i`. -/
def owner_details_data (companies : List Dict) (envs : Nat → Tier2Env) : List Dict :=
  (validateCompanies companies).2 ++
    (validateCompanies companies).1.mapIdx (fun i ci => tier2_analysis_owner2 ci (envs i))

/-- One record's company_info in the owner.py handler (lines 38-42): no
name validation, `location` built unconditionally. -/
def toCompanyInfoV1 (c : Dict) : Dict :=
  [("name", dgetD c "name" .null),
   ("location", .str (pyStripChars [',', ' ']
      (pyStr (dgetD c "city" (.str "")) ++ ", " ++ pyStr (dgetD c "state" (.str "")))))]

/-- The external-call outcomes one owner.py pipeline run depends on. -/
structure Tier2EnvV1 where
  hits : List Hit
  gemini : Except String (Option String)
  enhCandidates : List String

/-- The owner.py handler's `data` array (lines 35-47): every record —
nameless or not — is passed to `_tier2_analysis`. -/
def owner_details_data_v1 (companies : List Dict) (envs : Nat → Tier2EnvV1) : List Dict :=
  companies.mapIdx (fun i c =>
    tier2_analysis_owner (toCompanyInfoV1 c) (envs i).hits (envs i).gemini
      (envs i).enhCandidates)

theorem validateCompanies_eq (companies : List Dict) :
    validateCompanies companies =
      ((companies.filter (fun c => pyTruthy (dgetD c "name" .null))).map toCompanyInfo,
       (companies.filter (fun c => !pyTruthy (dgetD c "name" .null))).map
         (fun _ => missing_name_record)) := by
  induction companies with
  | nil => rfl
  | cons c rest ih =>
    by_cases hc : pyTruthy (dgetD c "name" .null) = true
    · simp [validateCompanies, hc, List.filter_cons, ih]
    · simp [validateCompanies, hc, List.filter_cons, ih]

theorem filter_split_length (p : Dict → Bool) (l : List Dict) :
    (l.filter (fun c => !p c)).length + (l.filter p).length = l.length := by
  induction l with
  | nil => rfl
  | cons c rest ih =>
    by_cases hc : p c = true <;> simp [List.filter_cons, hc, ← ih] <;> omega

/-- **C8 (amended)** — in the final owner2 revision, the `data` array has
exactly one entry per input record: each record lacking a truthy name
contributes the fixed `Missing company name` record, independent of the
pipeline environment (the pipeline is never invoked for it), and every
other record contributes exactly one pipeline result, in submission order
regardless of completion order (`executor.map` preserves input order).
The earlier owner.py revision performs no name validation and dispatches
every record to the pipeline (see the counterexample). -/
theorem c8_batch_shape (companies : List Dict) (envs : Nat → Tier2Env) :
    (owner_details_data companies envs).length = companies.length ∧
    owner_details_data companies envs =
      (companies.filter (fun c => !pyTruthy (dgetD c "name" .null))).map
          (fun _ => missing_name_record) ++
        ((companies.filter (fun c => pyTruthy (dgetD c "name" .null))).map
          toCompanyInfo).mapIdx (fun i ci => tier2_analysis_owner2 ci (envs i)) := by
  constructor
  · rw [owner_details_data, validateCompanies_eq]
    simp only [List.length_append, List.length_mapIdx, List.length_map]
    exact filter_split_length (fun c => pyTruthy (dgetD c "name" .null)) companies
  · rw [owner_details_data, validateCompanies_eq]

/-- **C8 counterexample** — the owner.py handler dispatches a nameless
record to the pipeline: the same nameless input yields different records
under different pipeline environments (zero hits vs. a successful
analysis), so there is no immediate error record and the pipeline runs. -/
theorem c8_counterexample :
    dget ((owner_details_data_v1 [[]] (fun _ => ⟨[], .ok (some ""), []⟩)).headD [])
      "error" = some (.str "No search results found") ∧
    dget ((owner_details_data_v1 [[]]
        (fun _ => ⟨[⟨"t", "s", "u"⟩], .ok (some "\x7b\x7d"), []⟩)).headD [])
      "error" = none := ⟨rfl, rfl⟩

/-- **C1 witness** — concrete run through the search-failure branch: the
`error` key is present. -/
theorem c1_result_shape_witness :
    (dget (tier2_analysis_owner2 [("name", .str "Acme Co"), ("location", .str "")]
      ⟨some "key", [.httpError 401, .ok []], true, .ok (some "")⟩) "error").isSome = true :=
  c1_result_shape [("name", .str "Acme Co"), ("location", .str "")]
    ⟨some "key", [.httpError 401, .ok []], true, .ok (some "")⟩ "error" (by decide)
